import Mathlib

/-!
Verification of the keyshare server core (`internal/keysharecore/operations.go`)
of the irmago repository.

The Go code is shallowly embedded: the pure control flow of `operations.go` is
translated function by function; the collaborators that live outside that file
(the secrets container of `keys.go`, base64, the golang-jwt parser, the gabi
crypto primitives and ECDSA verification) are modelled by explicit, executable
Lean definitions whose doc comments state what they stand for.  Randomness
(`rand.Read`, random commit ids) is passed in as an explicit argument, so an
operation that draws randomness takes the drawn value as a parameter.
Machine state (the challenge and commitment maps of `Core`) is threaded
explicitly: every state-mutating operation returns the updated `Core`.
-/

set_option linter.unusedVariables false

namespace Keysharecore

/-- Byte strings ([]byte in Go) are modelled as lists of naturals. -/
abbrev Bytes := List Nat

/-- Error values of the core: the named errors of operations.go lines 22-31
plus the failure modes of the modelled collaborators (AES-GCM decryption
failure, ECDSA signature failure, and the two ad-hoc `errors.New` cases of
`GenerateChallenge` and `SetUserPublicKey`). -/
inductive KError where
  | invalidPin
  | pinTooLong
  | invalidChallenge
  | invalidJWT
  | expiredJWT
  | keyNotFound
  | unknownCommit
  | challengeResponseRequired
  | decryptionFailed
  | signatureInvalid
  | alreadyHasPublicKey
  | noPublicKey
deriving DecidableEq, Repr

/-- The plaintext secrets record (`unencryptedUserSecrets`).  `Pin` holds the
fixed-width (padded) pin field, `KeyshareSecret` the gabi keyshare secret,
`ID` the 32-byte token-id, `PublicKey` the optional registered client ECDSA
key (keys modelled as naturals). -/
structure unencryptedUserSecrets where
  Pin : String
  KeyshareSecret : Int
  ID : Bytes
  PublicKey : Option Nat
deriving DecidableEq, Repr

/-- Modelled from the spec: the PIN field of the secrets container has a fixed
width; longer input is rejected with `PinTooLong` (spec 4.1). -/
def maxPinSize : Nat := 64

/-- Modelled from the spec: pad a pin string to the fixed container width,
rejecting pins longer than the container (`PinTooLong`); missing from src/
(keys.go `padPin`). -/
def padPin (pin : String) : Except KError String :=
  if maxPinSize < pin.length then .error .pinTooLong
  else .ok (pin ++ String.mk (List.replicate (maxPinSize - pin.length) (Char.ofNat 0)))

/-- Modelled from the spec: store the (padded) pin in the container; missing
from src/ (keys.go `setPin`). -/
def unencryptedUserSecrets.setPin (s : unencryptedUserSecrets) (pin : String) :
    Except KError unencryptedUserSecrets :=
  match padPin pin with
  | .error e => .error e
  | .ok p => .ok { s with Pin := p }

/-- Modelled from the spec: constant-time comparison of the supplied pin
against the stored fixed-width pin field, `InvalidPin` on mismatch; missing
from src/ (keys.go `verifyPin`). -/
def unencryptedUserSecrets.verifyPin (s : unencryptedUserSecrets) (pin : String) :
    Except KError Unit :=
  match padPin pin with
  | .error e => .error e
  | .ok p => if p = s.Pin then .ok () else .error .invalidPin

/-- Modelled from the spec: store the 32-byte token-id; missing from src/
(keys.go `setID`). -/
def unencryptedUserSecrets.setID (s : unencryptedUserSecrets) (id : Bytes) :
    unencryptedUserSecrets :=
  { s with ID := id }

/-- Modelled from the spec: store the keyshare secret; missing from src/
(keys.go `setKeyshareSecret`). -/
def unencryptedUserSecrets.setKeyshareSecret (s : unencryptedUserSecrets) (sec : Int) :
    unencryptedUserSecrets :=
  { s with KeyshareSecret := sec }

/-- Modelled from the spec: an encrypted secrets blob is opaque authenticated
ciphertext under the process-wide symmetric key (spec 3, 4.1).  `some s` is a
well-formed blob sealing plaintext `s` under that key; `none` is any blob that
fails authenticated decryption (tampered, or sealed under another key). -/
abbrev UserSecrets := Option unencryptedUserSecrets

/-- Modelled from the spec: authenticated encryption of the plaintext secrets
under the process key; missing from src/ (keys.go `encryptUserSecrets`). -/
def encryptUserSecrets (s : unencryptedUserSecrets) : Except KError UserSecrets :=
  .ok (some s)

/-- Modelled from the spec: authenticated decryption; any tamper or wrong key
yields a decryption failure (spec 3); missing from src/ (keys.go
`decryptUserSecrets`). -/
def decryptUserSecrets : UserSecrets → Except KError unencryptedUserSecrets
  | none => .error .decryptionFailed
  | some s => .ok s

/-- Modelled from the spec: decrypt, then constant-time compare the PIN,
returning `InvalidPin` on mismatch (spec 4.1); missing from src/ (keys.go
`decryptUserSecretsIfPinOK`). -/
def decryptUserSecretsIfPinOK (secrets : UserSecrets) (pin : String) :
    Except KError unencryptedUserSecrets :=
  match decryptUserSecrets secrets with
  | .error e => .error e
  | .ok s =>
    match s.verifyPin pin with
    | .error e => .error e
    | .ok _ => .ok s

/-- Value of a JSON claim inspected by `verifyAccess`.  This models the
distinctions the Go code makes about the `token_id` claim: `bytesStr bs` is a
JSON string that is valid standard base64 decoding to the bytes `bs` (base64
is a bijection between byte strings and their encodings, so the encoding of
`bs` is represented by `bs` itself), `badStr` a JSON string that is not valid
base64, `nonStr` a non-string JSON value. -/
inductive ClaimValue where
  | bytesStr (bs : Bytes)
  | badStr
  | nonStr
deriving DecidableEq, Repr

/-- The claim set of a parsed JWT (`jwt.MapClaims`), restricted to the claims
the embedded code reads: the registered time claims validated by the
golang-jwt library, the informational `iss`/`sub`, and the `token_id` claim. -/
structure MapClaims where
  iss : Option String
  sub : Option String
  iat : Option Int
  exp : Option Int
  nbf : Option Int
  token_id : Option ClaimValue
deriving DecidableEq, Repr

/-- An RSA-signed JWT as handled by the golang-jwt library: `alg` is the
header algorithm, `kid` the key-id header, `signedBy = some k` means the
token carries a valid signature under key pair `k` over exactly this header
and claim set, `signedBy = none` a signature that verifies under no key. -/
structure JWTToken where
  alg : String
  kid : Option String
  claims : MapClaims
  signedBy : Option Nat
deriving DecidableEq, Repr

/-- golang-jwt v4 `MapClaims.VerifyExpiresAt`: with a required flag, an absent
`exp` passes iff not required; a present `exp` passes iff `now ≤ exp`. -/
def verifyExpiresAt (m : MapClaims) (now : Int) (required : Bool) : Bool :=
  match m.exp with
  | none => !required
  | some e => now ≤ e

/-- golang-jwt v4 `MapClaims.VerifyIssuedAt` (non-required form used by
`Valid`): absent `iat` passes; a present `iat` passes iff `iat ≤ now`. -/
def verifyIssuedAt (m : MapClaims) (now : Int) : Bool :=
  match m.iat with
  | none => true
  | some i => i ≤ now

/-- golang-jwt v4 `MapClaims.VerifyNotBefore` (non-required form used by
`Valid`): absent `nbf` passes; a present `nbf` passes iff `nbf ≤ now`. -/
def verifyNotBefore (m : MapClaims) (now : Int) : Bool :=
  match m.nbf with
  | none => true
  | some n => n ≤ now

/-- golang-jwt v4 `MapClaims.Valid`: validates `exp`, `iat` and `nbf` with
required = false.  The library runs this inside `jwt.Parse`
(SkipClaimsValidation defaults to false), so an expired token already fails
parsing; operations.go line 170 runs the same predicate once more. -/
def mapClaimsValid (m : MapClaims) (now : Int) : Bool :=
  verifyExpiresAt m now false && verifyIssuedAt m now && verifyNotBefore m now

/-- The process state of the core (`Core`): the JWT signing key pair (keys
modelled as naturals), its key id and issuer, the access-token lifetime, the
immutable trusted-key registry, and the two mutable maps (pending commitments
and outstanding auth challenges), modelled as association lists. -/
structure Core where
  jwtPrivateKey : Nat
  jwtPrivateKeyID : String
  jwtIssuer : String
  jwtPinExpiry : Int
  trustedKeys : List (String × Nat)
  commitmentData : List (Nat × Int)
  authChallenges : List (Bytes × Bytes)
deriving DecidableEq, Repr

/-- Association-list lookup, modelling Go map indexing. -/
def alookup {α β : Type} [DecidableEq α] : List (α × β) → α → Option β
  | [], _ => none
  | (k, v) :: rest, key => if k = key then some v else alookup rest key

/-- Association-list deletion, modelling Go `delete` (a no-op on absent keys
up to lookup). -/
def aerase {α β : Type} [DecidableEq α] : List (α × β) → α → List (α × β)
  | [], _ => []
  | (k, v) :: rest, key =>
    if k = key then aerase rest key else (k, v) :: aerase rest key

/-- Association-list insertion, modelling Go map assignment (overwrite). -/
def ainsert {α β : Type} [DecidableEq α] (m : List (α × β)) (key : α) (v : β) :
    List (α × β) :=
  (key, v) :: aerase m key

/-- authJWT (operations.go lines 78-89): mint an access token signed with the
core's RSA key, claims {iss, sub = "auth_tok", iat = now, exp = now +
pinExpiry, token_id = b64(s.ID)}. -/
def authJWT (c : Core) (s : unencryptedUserSecrets) (now : Int) : JWTToken :=
  { alg := "RS256"
    kid := some c.jwtPrivateKeyID
    claims :=
      { iss := some c.jwtIssuer
        sub := some "auth_tok"
        iat := some now
        exp := some (now + c.jwtPinExpiry)
        nbf := none
        token_id := some (.bytesStr s.ID) }
    signedBy := some c.jwtPrivateKey }

/-- verifyAccess (operations.go lines 156-198).  `jwt.Parse` with the keyfunc
of line 158-164 fails (hence `ErrInvalidJWT` at line 166) when the header
algorithm is not RS256, when the signature does not verify under the core's
key, or when the registered claims are invalid at `now` (the library
validates claims inside Parse; line 170 repeats that same check).  Line 173
then re-checks expiry with required = true, so after a passing `Valid` it can
only fire for an absent `exp` claim.  Lines 176-186 require a `token_id`
claim that is a base64 string; lines 188-195 decrypt and constant-time
compare the decoded claim with the blob's token-id. -/
def verifyAccess (c : Core) (secrets : UserSecrets) (tok : JWTToken) (now : Int) :
    Except KError unencryptedUserSecrets :=
  if tok.alg ≠ "RS256" then .error .invalidJWT
  else if tok.signedBy ≠ some c.jwtPrivateKey then .error .invalidJWT
  else if mapClaimsValid tok.claims now = false then .error .invalidJWT
  else if verifyExpiresAt tok.claims now true = false then .error .expiredJWT
  else
    match tok.claims.token_id with
    | none => .error .invalidJWT
    | some .badStr => .error .invalidJWT
    | some .nonStr => .error .invalidJWT
    | some (.bytesStr tid) =>
      match decryptUserSecrets secrets with
      | .error e => .error e
      | .ok s => if s.ID = tid then .ok s else .error .invalidJWT

/-- ValidateJWT (operations.go lines 111-114): the error part of
`verifyAccess`. -/
def ValidateJWT (c : Core) (secrets : UserSecrets) (tok : JWTToken) (now : Int) :
    Except KError Unit :=
  match verifyAccess c secrets tok now with
  | .error e => .error e
  | .ok _ => .ok ()

/-- An ECDSA signature blob as submitted in a challenge-response: the key that
produced it and the signed `KeyshareChallengeData{challenge, pin}` message
(JSON serialization is injective on this record, so the message is modelled by
its fields).  A blob that parses under no key is `none` at the use site. -/
structure SignedMessage where
  key : Nat
  challenge : Bytes
  pin : String
deriving DecidableEq, Repr

/-- A submitted challenge-response blob: a parsed signature or garbage. -/
abbrev Response := Option SignedMessage

/-- Modelled from the spec: gabi `signed.Verify` — ECDSA verification of the
response blob against the registered public key and the canonical
serialization of {challenge, pin} (spec 4.4); succeeds exactly when the blob
is a signature by that key over that message, and fails when no key is
registered (nil key). -/
def signedVerify (pk : Option Nat) (challenge : Bytes) (pin : String)
    (response : Response) : Except KError Unit :=
  match pk, response with
  | some k, some sig =>
    if sig.key = k ∧ sig.challenge = challenge ∧ sig.pin = pin then .ok ()
    else .error .signatureInvalid
  | _, _ => .error .signatureInvalid

/-- challenge (operations.go lines 298-305): look up and delete the stored
auth challenge for a token-id (Go returns nil for an absent key; `delete` is
a no-op there). -/
def challengeOp (c : Core) (id : Bytes) : Option Bytes × Core :=
  (alookup c.authChallenges id,
   { c with authChallenges := aerase c.authChallenges id })

/-- verifyChallengeResponse (operations.go lines 91-107): consume the stored
challenge; if none is outstanding, fail with `ErrChallengeResponseRequired`
exactly when a public key is registered, succeed otherwise (legacy user);
with an outstanding challenge, verify the ECDSA response over
{challenge, pin}. -/
def verifyChallengeResponse (c : Core) (s : unencryptedUserSecrets)
    (response : Response) (pin : String) : Except KError Unit × Core :=
  match challengeOp c s.ID with
  | (none, c') =>
    (if s.PublicKey.isSome then .error .challengeResponseRequired else .ok (), c')
  | (some ch, c') => (signedVerify s.PublicKey ch pin response, c')

/-- ValidateAuth (operations.go lines 64-76): decrypt-if-pin-ok, verify the
challenge-response, then mint an access token.  An error before the
challenge lookup leaves the core untouched. -/
def ValidateAuth (c : Core) (secrets : UserSecrets) (response : Response)
    (pin : String) (now : Int) : Except KError JWTToken × Core :=
  match decryptUserSecretsIfPinOK secrets pin with
  | .error e => (.error e, c)
  | .ok s =>
    match verifyChallengeResponse c s response pin with
    | (.error e, c') => (.error e, c')
    | (.ok _, c') => (.ok (authJWT c s now), c')

/-- The claims of a `KeyshareChangePinClaims` JWT: old and new pin. -/
structure ChangePinClaims where
  OldPin : String
  NewPin : String
deriving DecidableEq, Repr

/-- A PIN-change JWT as submitted by the client: its claims, the ECDSA key
that signed it (`none` for an invalid signature), and whether its registered
time claims are valid at parse time (validated by the golang-jwt library
inside `ParseWithClaims`). -/
structure ChangePinJWT where
  claims : ChangePinClaims
  signedBy : Option Nat
  claimsOK : Bool
deriving DecidableEq, Repr

/-- The `jwt.ParseWithClaims` call of ChangePin (operations.go lines
124-133): the keyfunc fails with `ErrKeyNotFound` when no client public key
is registered (the library wraps it; we keep the kind); otherwise the
signature must verify under the registered key and the registered claims must
be valid. -/
def parseChangePinJWT (s : unencryptedUserSecrets) (j : ChangePinJWT) :
    Except KError ChangePinClaims :=
  match s.PublicKey with
  | none => .error .keyNotFound
  | some pk =>
    if j.signedBy = some pk ∧ j.claimsOK then .ok j.claims
    else .error .invalidJWT

/-- ChangePin (operations.go lines 118-152): decrypt, parse and verify the
signed {oldpin, newpin} claims, verify the old pin, then store the new pin
and a freshly drawn 32-byte token-id (`newID` is the randomness drawn at
line 140-144) and re-encrypt. -/
def ChangePin (c : Core) (secrets : UserSecrets) (jwtt : ChangePinJWT)
    (newID : Bytes) : Except KError UserSecrets :=
  match decryptUserSecrets secrets with
  | .error e => .error e
  | .ok s =>
    match parseChangePinJWT s jwtt with
    | .error e => .error e
    | .ok claims =>
      match s.verifyPin claims.OldPin with
      | .error e => .error e
      | .ok _ =>
        match s.setPin claims.NewPin with
        | .error e => .error e
        | .ok s' => encryptUserSecrets (s'.setID newID)

/-- A keyshare commitment (gabi `ProofPCommitment`), modelled opaquely as the
public key it is for paired with the commit secret it commits to. -/
abbrev ProofPCommitment := Nat × Int

/-- Modelled from the spec: gabi `NewKeyshareCommitments` — draws a random
commit secret (passed in as `rnd`) and produces one commitment per public
key; the commitment values themselves are opaque to the core. -/
def newKeyshareCommitments (keys : List Nat) (rnd : Int) :
    Int × List ProofPCommitment :=
  (rnd, keys.map fun k => (k, rnd))

/-- The key-list construction of GenerateCommitments (operations.go lines
203-210): resolve every keyID against the trusted-key registry, failing with
`ErrKeyNotFound` on the first miss. -/
def resolveKeys (c : Core) : List String → Except KError (List Nat)
  | [] => .ok []
  | keyID :: rest =>
    match alookup c.trustedKeys keyID with
    | none => .error .keyNotFound
    | some key =>
      match resolveKeys c rest with
      | .error e => .error e
      | .ok keys => .ok (key :: keys)

/-- GenerateCommitments (operations.go lines 201-237): resolve the key list,
then verify access and decrypt, then generate commitments and a random
64-bit commit id (`commitID` is the randomness drawn at lines 225-229) and
store the commit secret under it. -/
def GenerateCommitments (c : Core) (secrets : UserSecrets) (accessToken : JWTToken)
    (keyIDs : List String) (now : Int) (rndCommit : Int) (commitID : Nat) :
    Except KError (List ProofPCommitment × Nat) × Core :=
  match resolveKeys c keyIDs with
  | .error e => (.error e, c)
  | .ok keyList =>
    match verifyAccess c secrets accessToken now with
    | .error e => (.error e, c)
    | .ok _ =>
      match newKeyshareCommitments keyList rndCommit with
      | (commitSecret, commitments) =>
        (.ok (commitments, commitID),
         { c with commitmentData := ainsert c.commitmentData commitID commitSecret })

/-- Lh of `gabikeys.DefaultSystemParameters[1024]`: the hash bit length 256. -/
def Lh : Nat := 256

/-- Helper for `bitLen`: binary length of a natural, driven by a fuel
argument so that it reduces structurally (fuel ≥ the value suffices). -/
def natBitLenAux : Nat → Nat → Nat
  | 0, _ => 0
  | fuel + 1, n => if n = 0 then 0 else natBitLenAux fuel (n / 2) + 1

/-- big.Int `BitLen`: the bit length of the absolute value (0 for 0). -/
def bitLen (n : Int) : Nat :=
  natBitLenAux n.natAbs n.natAbs

/-- Modelled from the spec: gabi `KeyshareResponse` — the server's ZK response
for its keyshare secret, given the consumed commit secret, the client
challenge and the public key; opaque to the core, modelled by its inputs. -/
def keyshareResponse (secret commit challenge : Int) (key : Nat) :
    Int × Int × Int × Nat :=
  (secret, commit, challenge, key)

/-- The ProofP JWT returned by GenerateResponse (operations.go lines
266-273): claims {ProofP, iat, sub = "ProofP", iss}, kid header, signed with
the core's RSA key. -/
structure ProofPJWT where
  proofP : Int × Int × Int × Nat
  iat : Int
  iss : String
  kid : String
  signedBy : Nat
deriving DecidableEq, Repr

/-- GenerateResponse (operations.go lines 240-274): first the challenge bound
check (`BitLen > Lh` or negative → `ErrInvalidChallenge`), then keyID
resolution, then access verification, then consume-and-delete of the commit
secret (`ErrUnknownCommit` when absent), then the signed ProofP token. -/
def GenerateResponse (c : Core) (secrets : UserSecrets) (accessToken : JWTToken)
    (commitID : Nat) (challenge : Int) (keyID : String) (now : Int) :
    Except KError ProofPJWT × Core :=
  if Lh < bitLen challenge ∨ challenge < 0 then (.error .invalidChallenge, c)
  else
    match alookup c.trustedKeys keyID with
    | none => (.error .keyNotFound, c)
    | some key =>
      match verifyAccess c secrets accessToken now with
      | .error e => (.error e, c)
      | .ok s =>
        let commit := alookup c.commitmentData commitID
        let c' := { c with commitmentData := aerase c.commitmentData commitID }
        match commit with
        | none => (.error .unknownCommit, c')
        | some commitSecret =>
          (.ok { proofP := keyshareResponse s.KeyshareSecret commitSecret challenge key
                 iat := now
                 iss := c.jwtIssuer
                 kid := c.jwtPrivateKeyID
                 signedBy := c.jwtPrivateKey }, c')

/-- GenerateChallenge (operations.go lines 276-296): decrypt, require a
registered public key, draw 32 random bytes (`rnd`) and store them keyed by
the token-id. -/
def GenerateChallenge (c : Core) (secrets : UserSecrets) (rnd : Bytes) :
    Except KError Bytes × Core :=
  match decryptUserSecrets secrets with
  | .error e => (.error e, c)
  | .ok s =>
    match s.PublicKey with
    | none => (.error .noPublicKey, c)
    | some _ =>
      (.ok rnd, { c with authChallenges := ainsert c.authChallenges s.ID rnd })

/-- SetUserPublicKey (operations.go lines 307-327): decrypt-if-pin-ok, refuse
when a public key is already registered, store the key, re-encrypt, and mint
an access token over the (unchanged) token-id. -/
def SetUserPublicKey (c : Core) (secrets : UserSecrets) (pin : String) (pk : Nat)
    (now : Int) : Except KError (JWTToken × UserSecrets) :=
  match decryptUserSecretsIfPinOK secrets pin with
  | .error e => .error e
  | .ok s =>
    if s.PublicKey.isSome then .error .alreadyHasPublicKey
    else
      let s' := { s with PublicKey := some pk }
      match encryptUserSecrets s' with
      | .error e => .error e
      | .ok secrets' => .ok (authJWT c s' now, secrets')

/-- NewUserSecrets (operations.go lines 34-61): build fresh plaintext secrets
from the pin, a freshly generated keyshare secret and a random 32-byte
token-id (both passed as the drawn randomness), and seal them. -/
def NewUserSecrets (pin : String) (pk : Option Nat) (secret : Int) (id : Bytes) :
    Except KError UserSecrets :=
  let s0 : unencryptedUserSecrets :=
    { Pin := "", KeyshareSecret := 0, ID := [], PublicKey := none }
  match s0.setPin pin with
  | .error e => .error e
  | .ok s1 => encryptUserSecrets { (s1.setKeyshareSecret secret).setID id with PublicKey := pk }

/-- One call against the core, with its randomness made explicit; used to
quantify over the operations a server may interleave between two calls. -/
inductive CoreOp where
  | validateAuth (secrets : UserSecrets) (response : Response) (pin : String) (now : Int)
  | generateChallenge (secrets : UserSecrets) (rnd : Bytes)
  | generateCommitments (secrets : UserSecrets) (tok : JWTToken)
      (keyIDs : List String) (now : Int) (rndCommit : Int) (commitID : Nat)
  | generateResponse (secrets : UserSecrets) (tok : JWTToken) (commitID : Nat)
      (challenge : Int) (keyID : String) (now : Int)

/-- The state transition of one call (results discarded). -/
def applyOp (c : Core) : CoreOp → Core
  | .validateAuth secrets response pin now => (ValidateAuth c secrets response pin now).2
  | .generateChallenge secrets rnd => (GenerateChallenge c secrets rnd).2
  | .generateCommitments secrets tok keyIDs now rndCommit commitID =>
    (GenerateCommitments c secrets tok keyIDs now rndCommit commitID).2
  | .generateResponse secrets tok commitID challenge keyID now =>
    (GenerateResponse c secrets tok commitID challenge keyID now).2

/-- The state after a sequence of calls. -/
def applyOps (c : Core) (ops : List CoreOp) : Core :=
  ops.foldl applyOp c

/-- Whether a call is a GenerateCommitments that drew the given commit id. -/
def CoreOp.mintsCommit (cid : Nat) : CoreOp → Bool
  | .generateCommitments _ _ _ _ _ commitID => commitID = cid
  | _ => false

/-- Whether a call is a GenerateChallenge for a blob whose token-id is `id`
(the only kind of call that can store an auth challenge under `id`). -/
def CoreOp.storesChallengeFor (id : Bytes) : CoreOp → Bool
  | .generateChallenge secrets _ =>
    match decryptUserSecrets secrets with
    | .ok s => s.ID = id
    | .error _ => false
  | _ => false

/-- A concrete core used by witnesses and counterexamples. -/
def sampleCore : Core :=
  { jwtPrivateKey := 1
    jwtPrivateKeyID := "kid0"
    jwtIssuer := "issuer0"
    jwtPinExpiry := 60
    trustedKeys := [("test.test-3", 7)]
    commitmentData := []
    authChallenges := [] }

/-- A concrete legacy user (no registered public key), pin "1234". -/
def sampleSecretsPlain : unencryptedUserSecrets :=
  { Pin := (match padPin "1234" with | .ok p => p | .error _ => "")
    KeyshareSecret := 3
    ID := [1, 2, 3]
    PublicKey := none }

/-- `sampleSecretsPlain` after a public-key registration with key 9. -/
def sampleSecretsWithPK : unencryptedUserSecrets :=
  { sampleSecretsPlain with PublicKey := some 9 }

/-- A concrete challenge-response user: registered public key 9, pin "1234". -/
def sampleSecretsCR : unencryptedUserSecrets :=
  { Pin := (match padPin "1234" with | .ok p => p | .error _ => "")
    KeyshareSecret := 3
    ID := [4, 5, 6]
    PublicKey := some 9 }

/-- A concrete core holding one pending commitment (id 5) and no challenges. -/
def sampleCoreWithCommit : Core :=
  { sampleCore with commitmentData := [(5, 99)] }

/-- A concrete core holding an outstanding auth challenge for the
challenge-response user. -/
def sampleCoreWithChallenge : Core :=
  { sampleCore with authChallenges := [([4, 5, 6], [9, 9])] }

/-- A concrete token that fails access verification (non-RS256 header). -/
def sampleBadToken : JWTToken :=
  { alg := "none", kid := none
    claims := { iss := none, sub := none, iat := none, exp := none,
                nbf := none, token_id := none }
    signedBy := none }

/-- A concrete access token correctly signed with the core's key, carrying
the legacy user's token-id, with expiry 5 (in the past at time 10). -/
def sampleExpiredToken : JWTToken :=
  { alg := "RS256", kid := some "kid0"
    claims := { iss := some "issuer0", sub := some "auth_tok", iat := some 0,
                exp := some 5, nbf := none,
                token_id := some (.bytesStr [1, 2, 3]) }
    signedBy := some 1 }

/- ### Association-list lemmas -/

theorem alookup_aerase_self {α β : Type} [DecidableEq α] (m : List (α × β)) (k : α) :
    alookup (aerase m k) k = none := by
  induction m with
  | nil => rfl
  | cons p rest ih =>
    obtain ⟨k', v⟩ := p
    by_cases h : k' = k
    · simpa [aerase, h] using ih
    · simp [aerase, h, alookup, ih]

theorem alookup_aerase_ne {α β : Type} [DecidableEq α] (m : List (α × β)) (k k' : α)
    (h : k' ≠ k) : alookup (aerase m k) k' = alookup m k' := by
  induction m with
  | nil => rfl
  | cons p rest ih =>
    obtain ⟨k₀, v⟩ := p
    by_cases h₀ : k₀ = k
    · have hne : k₀ ≠ k' := fun hh => h (hh.symm.trans h₀)
      simp [aerase, h₀, alookup, hne, Ne.symm h, ih]
    · by_cases h₁ : k₀ = k'
      · simp [aerase, h₀, alookup, h₁, h]
      · simp [aerase, h₀, alookup, h₁, ih]

theorem alookup_aerase_none {α β : Type} [DecidableEq α] (m : List (α × β)) (k k' : α)
    (h : alookup m k' = none) : alookup (aerase m k) k' = none := by
  by_cases hk : k' = k
  · subst hk; exact alookup_aerase_self m k'
  · rw [alookup_aerase_ne m k k' hk]; exact h

theorem alookup_ainsert_ne {α β : Type} [DecidableEq α] (m : List (α × β)) (k k' : α)
    (v : β) (h : k' ≠ k) : alookup (ainsert m k v) k' = alookup m k' := by
  have hne : k ≠ k' := fun hh => h hh.symm
  simp [ainsert, alookup, hne, alookup_aerase_ne m k k' h]

/- ### Component lemmas -/

theorem decryptUserSecrets_error (secrets : UserSecrets) (e : KError)
    (h : decryptUserSecrets secrets = .error e) : e = .decryptionFailed := by
  cases secrets <;> simp [decryptUserSecrets] at h <;> simp [h]

theorem decryptIfPinOK_ok_decrypt (secrets : UserSecrets) (pin : String)
    (s : unencryptedUserSecrets) (h : decryptUserSecretsIfPinOK secrets pin = .ok s) :
    decryptUserSecrets secrets = .ok s := by
  unfold decryptUserSecretsIfPinOK at h
  cases hd : decryptUserSecrets secrets with
  | error e => rw [hd] at h; simp at h
  | ok s' =>
    rw [hd] at h
    simp at h
    cases hv : s'.verifyPin pin with
    | error e => rw [hv] at h; simp at h
    | ok u => rw [hv] at h; simp at h; rw [h]

theorem verifyChallengeResponse_snd (c : Core) (s : unencryptedUserSecrets)
    (response : Response) (pin : String) :
    (verifyChallengeResponse c s response pin).2 =
      { c with authChallenges := aerase c.authChallenges s.ID } := by
  unfold verifyChallengeResponse challengeOp
  cases alookup c.authChallenges s.ID <;> rfl

/-- If the signature-verification error path never fires, `verifyAccess` can
only fail with `InvalidJWT`, `ExpiredJWT` or a decryption failure. -/
theorem verifyAccess_error_kinds (c : Core) (secrets : UserSecrets) (tok : JWTToken)
    (now : Int) (e : KError) (h : verifyAccess c secrets tok now = .error e) :
    e = .invalidJWT ∨ e = .expiredJWT ∨ e = .decryptionFailed := by
  unfold verifyAccess at h
  split at h
  · simp at h; subst h; simp
  · split at h
    · simp at h; subst h; simp
    · split at h
      · simp at h; subst h; simp
      · split at h
        · simp at h; subst h; simp
        · split at h
          · simp at h; subst h; simp
          · simp at h; subst h; simp
          · simp at h; subst h; simp
          · cases hd : decryptUserSecrets secrets with
            | error e' =>
              rw [hd] at h
              simp at h
              have hd2 := decryptUserSecrets_error secrets e' hd
              subst h
              simp [hd2]
            | ok s =>
              rw [hd] at h
              simp at h
              split at h
              · simp at h
              · simp at h; subst h; simp

/-- Verifying a freshly minted access token against a blob whose token-id
differs from the token's `token_id` claim always yields `ErrInvalidJWT`,
whatever the verification time. -/
theorem verifyAccess_authJWT_ne (c : Core) (s₂ s : unencryptedUserSecrets)
    (mint now : Int) (hne : s₂.ID ≠ s.ID) :
    verifyAccess c (some s₂) (authJWT c s mint) now = .error .invalidJWT := by
  by_cases h1 : now ≤ mint + c.jwtPinExpiry <;>
  by_cases h2 : mint ≤ now <;>
  simp [verifyAccess, authJWT, mapClaimsValid, verifyExpiresAt, verifyIssuedAt,
    verifyNotBefore, decryptUserSecrets, hne, h1, h2]

/- ### C3 -/

/-- C3: for every secrets blob and every JWT whose header declares a signing
algorithm other than RS256, access-token verification (ValidateJWT and
verifyAccess) fails with `ErrInvalidJWT`, regardless of the token's claims or
signature. -/
theorem verifyAccess_rejects_non_rs256 (c : Core) (secrets : UserSecrets)
    (tok : JWTToken) (now : Int) (h : tok.alg ≠ "RS256") :
    ValidateJWT c secrets tok now = .error .invalidJWT ∧
    verifyAccess c secrets tok now = .error .invalidJWT := by
  have hv : verifyAccess c secrets tok now = .error .invalidJWT := by
    unfold verifyAccess
    rw [if_pos h]
  exact ⟨by unfold ValidateJWT; rw [hv], hv⟩

/-- Witness for C3 at a concrete HS256-style token. -/
theorem verifyAccess_rejects_non_rs256_witness :
    ValidateJWT sampleCore (some sampleSecretsPlain)
        { alg := "HS256", kid := none
          claims := { iss := none, sub := none, iat := none, exp := none,
                      nbf := none, token_id := none }
          signedBy := some 1 } 0 = .error .invalidJWT ∧
    verifyAccess sampleCore (some sampleSecretsPlain)
        { alg := "HS256", kid := none
          claims := { iss := none, sub := none, iat := none, exp := none,
                      nbf := none, token_id := none }
          signedBy := some 1 } 0 = .error .invalidJWT :=
  verifyAccess_rejects_non_rs256 sampleCore (some sampleSecretsPlain) _ 0 (by decide)

/- ### C1 -/

/-- C1: for every encrypted secrets blob and every access token minted against
it (token_id claim = the blob's token-id), if ChangePin succeeds yielding a
new blob, then verifying that token against the new blob fails with
`ErrInvalidJWT`, provided the freshly drawn token-id differs from the old
one. -/
theorem changePin_invalidates_prior_access_tokens
    (c : Core) (secrets secrets' : UserSecrets) (s : unencryptedUserSecrets)
    (jwtt : ChangePinJWT) (newID : Bytes) (mint now : Int)
    (hdec : decryptUserSecrets secrets = .ok s)
    (hcp : ChangePin c secrets jwtt newID = .ok secrets')
    (hne : newID ≠ s.ID) :
    ValidateJWT c secrets' (authJWT c s mint) now = .error .invalidJWT := by
  unfold ChangePin at hcp
  rw [hdec] at hcp
  simp at hcp
  cases hp : parseChangePinJWT s jwtt with
  | error e => rw [hp] at hcp; simp at hcp
  | ok claims =>
    rw [hp] at hcp
    simp at hcp
    cases hv : s.verifyPin claims.OldPin with
    | error e => rw [hv] at hcp; simp at hcp
    | ok u =>
      rw [hv] at hcp
      simp at hcp
      cases hsp : s.setPin claims.NewPin with
      | error e => rw [hsp] at hcp; simp at hcp
      | ok s₁ =>
        rw [hsp] at hcp
        simp [encryptUserSecrets] at hcp
        have hva : verifyAccess c secrets' (authJWT c s mint) now = .error .invalidJWT := by
          rw [← hcp]
          exact verifyAccess_authJWT_ne c (s₁.setID newID) s mint now hne
        unfold ValidateJWT
        rw [hva]

/-- Witness for C1: concrete PIN change for the challenge-response user,
followed by a failed verification of the pre-change token. -/
theorem changePin_invalidates_prior_access_tokens_witness :
    ValidateJWT sampleCore
        (some { Pin := (match padPin "5678" with | .ok p => p | .error _ => "")
                KeyshareSecret := 3
                ID := [7, 7, 7]
                PublicKey := some 9 })
        (authJWT sampleCore sampleSecretsCR 0) 0 = .error .invalidJWT :=
  changePin_invalidates_prior_access_tokens sampleCore (some sampleSecretsCR)
    (some { Pin := (match padPin "5678" with | .ok p => p | .error _ => "")
            KeyshareSecret := 3
            ID := [7, 7, 7]
            PublicKey := some 9 })
    sampleSecretsCR
    { claims := { OldPin := "1234", NewPin := "5678" }, signedBy := some 9, claimsOK := true }
    [7, 7, 7] 0 0 rfl rfl (by decide)

/- ### C4 -/

/-- C4 counterexample: a token correctly signed with RS256, carrying the
matching token_id claim, whose expiry (5) lies before the verification time
(10), is rejected with `ErrInvalidJWT` — not with `ErrExpiredJWT` as the
claim states — because the golang-jwt parser (and the `claims.Valid()`
re-check of operations.go line 170) already rejects expired claims. -/
theorem verifyAccess_expired_token_cex :
    sampleExpiredToken.signedBy = some sampleCore.jwtPrivateKey ∧
    sampleExpiredToken.alg = "RS256" ∧
    sampleExpiredToken.claims.exp = some 5 ∧ (5 : Int) < 10 ∧
    sampleExpiredToken.claims.token_id = some (.bytesStr sampleSecretsPlain.ID) ∧
    verifyAccess sampleCore (some sampleSecretsPlain) sampleExpiredToken 10 =
      .error .invalidJWT ∧
    verifyAccess sampleCore (some sampleSecretsPlain) sampleExpiredToken 10 ≠
      .error .expiredJWT := by
  refine ⟨rfl, rfl, rfl, by decide, rfl, rfl, ?_⟩
  intro h
  rw [show verifyAccess sampleCore (some sampleSecretsPlain) sampleExpiredToken 10 =
    .error .invalidJWT from rfl] at h
  simp at h

/-- C4 amended: a correctly signed RS256 access token with matching token_id
whose expiry lies in the past is rejected with `ErrInvalidJWT` (the expired
registered claims already fail JWT parsing / the line-170 `claims.Valid()`
check, so the dedicated `ErrExpiredJWT` return of line 173 is not reached;
that error is returned only when the `exp` claim is absent). -/
theorem verifyAccess_expired_token_invalidJWT
    (c : Core) (secrets : UserSecrets) (s : unencryptedUserSecrets) (tok : JWTToken)
    (tid : Bytes) (e now : Int)
    (halg : tok.alg = "RS256")
    (hsig : tok.signedBy = some c.jwtPrivateKey)
    (htid : tok.claims.token_id = some (.bytesStr tid))
    (hdec : decryptUserSecrets secrets = .ok s)
    (hmatch : s.ID = tid)
    (hexp : tok.claims.exp = some e)
    (hpast : e < now) :
    verifyAccess c secrets tok now = .error .invalidJWT := by
  have hmc : mapClaimsValid tok.claims now = false := by
    unfold mapClaimsValid verifyExpiresAt
    rw [hexp]
    simp [not_le.mpr hpast]
  unfold verifyAccess
  rw [if_neg (by simp [halg]), if_neg (by simp [hsig]), if_pos hmc]

/-- Witness for the amended C4 at the concrete counterexample input. -/
theorem verifyAccess_expired_token_invalidJWT_witness :
    verifyAccess sampleCore (some sampleSecretsPlain) sampleExpiredToken 10 =
      .error .invalidJWT :=
  verifyAccess_expired_token_invalidJWT sampleCore (some sampleSecretsPlain)
    sampleSecretsPlain sampleExpiredToken [1, 2, 3] 5 10 rfl rfl rfl rfl rfl rfl
    (by decide)

/- ### C2 -/

/-- Two blobs whose plaintexts share the same token-id accept exactly the
same access tokens. -/
theorem verifyAccess_isOk_same_id (c : Core) (s s' : unencryptedUserSecrets)
    (hid : s'.ID = s.ID) (tok : JWTToken) (now : Int) :
    (verifyAccess c (some s') tok now).isOk = (verifyAccess c (some s) tok now).isOk := by
  unfold verifyAccess
  split
  · rfl
  · split
    · rfl
    · split
      · rfl
      · split
        · rfl
        · split
          · rfl
          · rfl
          · rfl
          · simp only [decryptUserSecrets, hid]
            split <;> simp_all [Except.isOk, Except.toBool]

/-- C2 counterexample: a successful `SetUserPublicKey` on the legacy user
(no key set, correct PIN) returns a blob with the SAME token-id as the input
blob, and an access token minted before the call still verifies against the
new blob — refuting the claimed token-id rotation. -/
theorem setUserPublicKey_no_rotation_cex :
    SetUserPublicKey sampleCore (some sampleSecretsPlain) "1234" 9 0 =
      .ok (authJWT sampleCore sampleSecretsWithPK 0, some sampleSecretsWithPK) ∧
    sampleSecretsWithPK.ID = sampleSecretsPlain.ID ∧
    (verifyAccess sampleCore (some sampleSecretsWithPK)
        (authJWT sampleCore sampleSecretsPlain 0) 0).isOk = true :=
  ⟨rfl, rfl, rfl⟩

/-- C2 amended: a successful `SetUserPublicKey` on a blob with no public key
set writes the supplied public key and mints a token, but does NOT rotate the
token-id: the new blob's plaintext differs from the old only in the public
key (same token-id), and any access token that verified against the old blob
still verifies against the new one. -/
theorem setUserPublicKey_preserves_token_id
    (c : Core) (secrets secrets' : UserSecrets) (s : unencryptedUserSecrets)
    (pin : String) (pk : Nat) (now : Int) (tok' : JWTToken)
    (hdec : decryptUserSecrets secrets = .ok s)
    (hnopk : s.PublicKey = none)
    (h : SetUserPublicKey c secrets pin pk now = .ok (tok', secrets')) :
    decryptUserSecrets secrets' = .ok { s with PublicKey := some pk } ∧
    ({ s with PublicKey := some pk } : unencryptedUserSecrets).ID = s.ID ∧
    ∀ tok now₂, (verifyAccess c secrets tok now₂).isOk = true →
      (verifyAccess c secrets' tok now₂).isOk = true := by
  unfold SetUserPublicKey at h
  cases hp : decryptUserSecretsIfPinOK secrets pin with
  | error e => rw [hp] at h; simp at h
  | ok s₀ =>
    have hs₀ : s₀ = s := by
      have := decryptIfPinOK_ok_decrypt secrets pin s₀ hp
      rw [hdec] at this
      exact (Except.ok.injEq _ _).mp this.symm
    subst hs₀
    rw [hp] at h
    simp [hnopk, encryptUserSecrets] at h
    have hsec : secrets' = some { s₀ with PublicKey := some pk } := h.2.symm
    subst hsec
    refine ⟨rfl, rfl, ?_⟩
    intro tok now₂ hok
    have hsome : secrets = some s₀ := by
      cases secrets with
      | none => simp [decryptUserSecrets] at hdec
      | some x => simp [decryptUserSecrets] at hdec; rw [hdec]
    rw [hsome] at hok
    rw [verifyAccess_isOk_same_id c s₀ { s₀ with PublicKey := some pk } rfl tok now₂]
    exact hok

/-- Witness for the amended C2 at the concrete legacy user. -/
theorem setUserPublicKey_preserves_token_id_witness :
    decryptUserSecrets (some sampleSecretsWithPK) =
      .ok { sampleSecretsPlain with PublicKey := some 9 } ∧
    ({ sampleSecretsPlain with PublicKey := some 9 } : unencryptedUserSecrets).ID =
      sampleSecretsPlain.ID ∧
    (verifyAccess sampleCore (some sampleSecretsWithPK)
        (authJWT sampleCore sampleSecretsPlain 0) 0).isOk = true :=
  have h := setUserPublicKey_preserves_token_id sampleCore (some sampleSecretsPlain)
    (some sampleSecretsWithPK) sampleSecretsPlain "1234" 9 0
    (authJWT sampleCore sampleSecretsWithPK 0) rfl rfl rfl
  ⟨h.1, h.2.1, h.2.2 (authJWT sampleCore sampleSecretsPlain 0) 0 rfl⟩

/- ### C6 -/

/-- C6: for a user whose decrypted secrets contain a registered client public
key, `ValidateAuth` without an outstanding challenge for the user's token-id
fails with `ErrChallengeResponseRequired`, even when the supplied PIN is
correct. -/
theorem validateAuth_requires_challenge_response
    (c : Core) (secrets : UserSecrets) (s : unencryptedUserSecrets)
    (resp : Response) (pin : String) (now : Int)
    (hdec : decryptUserSecrets secrets = .ok s)
    (hpk : s.PublicKey.isSome = true)
    (hch : alookup c.authChallenges s.ID = none)
    (hpin : s.verifyPin pin = .ok ()) :
    (ValidateAuth c secrets resp pin now).1 = .error .challengeResponseRequired := by
  have hd : decryptUserSecretsIfPinOK secrets pin = .ok s := by
    unfold decryptUserSecretsIfPinOK
    rw [hdec]
    simp [hpin]
  simp [ValidateAuth, hd, verifyChallengeResponse, challengeOp, hch, hpk]

/-- Witness for C6 at the concrete challenge-response user with no stored
challenge and the correct PIN. -/
theorem validateAuth_requires_challenge_response_witness :
    (ValidateAuth sampleCore (some sampleSecretsCR) none "1234" 0).1 =
      .error .challengeResponseRequired :=
  validateAuth_requires_challenge_response sampleCore (some sampleSecretsCR)
    sampleSecretsCR none "1234" 0 rfl rfl rfl rfl

/- ### C10 -/

/-- C10: a failed PIN check does not consume the outstanding auth challenge:
with an incorrect PIN, `ValidateAuth` fails with `ErrInvalidPin` before the
challenge lookup and returns the core unchanged, so the stored challenge for
the user's token-id is still there. -/
theorem validateAuth_wrong_pin_preserves_challenge
    (c : Core) (secrets : UserSecrets) (s : unencryptedUserSecrets)
    (resp : Response) (pin : String) (now : Int)
    (hdec : decryptUserSecrets secrets = .ok s)
    (hpin : s.verifyPin pin = .error .invalidPin) :
    ValidateAuth c secrets resp pin now = (.error .invalidPin, c) ∧
    alookup ((ValidateAuth c secrets resp pin now).2).authChallenges s.ID =
      alookup c.authChallenges s.ID := by
  have hd : decryptUserSecretsIfPinOK secrets pin = .error .invalidPin := by
    unfold decryptUserSecretsIfPinOK
    rw [hdec]
    simp [hpin]
  have h1 : ValidateAuth c secrets resp pin now = (.error .invalidPin, c) := by
    unfold ValidateAuth
    rw [hd]
  exact ⟨h1, by rw [h1]⟩

/-- Witness for C10: wrong PIN against the user with a stored challenge. -/
theorem validateAuth_wrong_pin_preserves_challenge_witness :
    (ValidateAuth sampleCoreWithChallenge (some sampleSecretsCR) none "9999" 0 =
      (.error .invalidPin, sampleCoreWithChallenge)) ∧
    alookup ((ValidateAuth sampleCoreWithChallenge (some sampleSecretsCR) none
        "9999" 0).2).authChallenges sampleSecretsCR.ID =
      alookup sampleCoreWithChallenge.authChallenges sampleSecretsCR.ID :=
  validateAuth_wrong_pin_preserves_challenge sampleCoreWithChallenge
    (some sampleSecretsCR) sampleSecretsCR none "9999" 0 rfl rfl

/- ### C9 -/

/-- C9: `GenerateResponse` fails with `ErrInvalidChallenge`, leaving the core
untouched (so before key resolution, access verification and commit
consumption), exactly when the challenge is negative or longer than Lh bits;
a challenge within bounds never produces that error. -/
theorem generateResponse_challenge_bound (c : Core) (secrets : UserSecrets)
    (tok : JWTToken) (cid : Nat) (ch : Int) (kid : String) (now : Int) :
    ((Lh < bitLen ch ∨ ch < 0) →
      GenerateResponse c secrets tok cid ch kid now = (.error .invalidChallenge, c)) ∧
    (bitLen ch ≤ Lh → 0 ≤ ch →
      (GenerateResponse c secrets tok cid ch kid now).1 ≠ .error .invalidChallenge) := by
  constructor
  · intro h
    unfold GenerateResponse
    rw [if_pos h]
  · intro h1 h2
    have hcond : ¬(Lh < bitLen ch ∨ ch < 0) := by
      push_neg
      exact ⟨h1, h2⟩
    unfold GenerateResponse
    rw [if_neg hcond]
    cases hk : alookup c.trustedKeys kid with
    | none => simp
    | some key =>
      cases ha : verifyAccess c secrets tok now with
      | error e =>
        have hkind := verifyAccess_error_kinds c secrets tok now e ha
        simp only []
        rcases hkind with h | h | h <;> simp [h]
      | ok s =>
        cases hc : alookup c.commitmentData cid with
        | none => simp
        | some commit => simp

/-- Witness for C9: the out-of-range challenge -1 is rejected, the in-range
challenge 3 is not rejected as invalid. -/
theorem generateResponse_challenge_bound_witness :
    (GenerateResponse sampleCore (some sampleSecretsPlain) sampleBadToken 0 (-1)
        "test.test-3" 0 = (.error .invalidChallenge, sampleCore)) ∧
    (GenerateResponse sampleCore (some sampleSecretsPlain) sampleBadToken 0 3
        "test.test-3" 0).1 ≠ .error .invalidChallenge :=
  ⟨(generateResponse_challenge_bound sampleCore (some sampleSecretsPlain)
      sampleBadToken 0 (-1) "test.test-3" 0).1 (by decide),
   (generateResponse_challenge_bound sampleCore (some sampleSecretsPlain)
      sampleBadToken 0 3 "test.test-3" 0).2 (by decide) (by decide)⟩

/- ### C8 -/

/-- C8 counterexample: with an access token that fails verification (non-RS256
header, so `ErrInvalidJWT`) and a keyID absent from the registry,
`GenerateCommitments` returns `ErrKeyNotFound` — key resolution runs BEFORE
access verification, refuting the claimed order. -/
theorem generateCommitments_key_miss_cex :
    (GenerateCommitments sampleCore (some sampleSecretsPlain) sampleBadToken
        ["nosuchkey"] 0 0 0).1 = .error .keyNotFound ∧
    verifyAccess sampleCore (some sampleSecretsPlain) sampleBadToken 0 =
      .error .invalidJWT :=
  ⟨rfl, rfl⟩

/-- C8 amended: in `GenerateCommitments`, keyID resolution precedes access
verification: a missing keyID yields `ErrKeyNotFound` regardless of the
access token, and only when all keyIDs resolve does a failing access token
yield its access error. -/
theorem generateCommitments_keys_before_access
    (c : Core) (secrets : UserSecrets) (tok : JWTToken) (keyIDs : List String)
    (now : Int) (rnd : Int) (cid : Nat) :
    (∀ e, resolveKeys c keyIDs = .error e →
      GenerateCommitments c secrets tok keyIDs now rnd cid = (.error e, c)) ∧
    (∀ ks a, resolveKeys c keyIDs = .ok ks →
      verifyAccess c secrets tok now = .error a →
      GenerateCommitments c secrets tok keyIDs now rnd cid = (.error a, c)) := by
  constructor
  · intro e he
    unfold GenerateCommitments
    rw [he]
  · intro ks a hks ha
    unfold GenerateCommitments
    rw [hks, ha]

/-- Witness for the amended C8: a missing key beats an invalid token; with
resolvable keys the invalid token's error surfaces. -/
theorem generateCommitments_keys_before_access_witness :
    (GenerateCommitments sampleCore (some sampleSecretsPlain) sampleBadToken
        ["nosuchkey"] 0 0 0 = (.error .keyNotFound, sampleCore)) ∧
    (GenerateCommitments sampleCore (some sampleSecretsPlain) sampleBadToken
        ["test.test-3"] 0 0 0 = (.error .invalidJWT, sampleCore)) :=
  ⟨(generateCommitments_keys_before_access sampleCore (some sampleSecretsPlain)
      sampleBadToken ["nosuchkey"] 0 0 0).1 .keyNotFound rfl,
   (generateCommitments_keys_before_access sampleCore (some sampleSecretsPlain)
      sampleBadToken ["test.test-3"] 0 0 0).2 [7] .invalidJWT rfl rfl⟩

/- ### State-preservation lemmas for operation traces -/

theorem ValidateAuth_snd_commitmentData (c : Core) (secrets : UserSecrets)
    (resp : Response) (pin : String) (now : Int) :
    ((ValidateAuth c secrets resp pin now).2).commitmentData = c.commitmentData := by
  unfold ValidateAuth
  cases hd : decryptUserSecretsIfPinOK secrets pin with
  | error e => rfl
  | ok s =>
    have h2 := verifyChallengeResponse_snd c s resp pin
    rcases hv : verifyChallengeResponse c s resp pin with ⟨r, c'⟩
    rw [hv] at h2
    cases r <;> simp [hv, h2]

theorem ValidateAuth_authChallenges_none (c : Core) (secrets : UserSecrets)
    (resp : Response) (pin : String) (now : Int) (id : Bytes)
    (h : alookup c.authChallenges id = none) :
    alookup ((ValidateAuth c secrets resp pin now).2).authChallenges id = none := by
  unfold ValidateAuth
  cases hd : decryptUserSecretsIfPinOK secrets pin with
  | error e => exact h
  | ok s =>
    have h2 := verifyChallengeResponse_snd c s resp pin
    rcases hv : verifyChallengeResponse c s resp pin with ⟨r, c'⟩
    rw [hv] at h2
    cases r <;> simp [hv, h2] <;> exact alookup_aerase_none _ _ _ h

theorem GenerateChallenge_snd_commitmentData (c : Core) (secrets : UserSecrets)
    (rnd : Bytes) :
    ((GenerateChallenge c secrets rnd).2).commitmentData = c.commitmentData := by
  unfold GenerateChallenge
  cases hd : decryptUserSecrets secrets with
  | error e => simp
  | ok s => cases hpk : s.PublicKey <;> simp [hpk]

theorem GenerateChallenge_authChallenges_none (c : Core) (secrets : UserSecrets)
    (rnd : Bytes) (id : Bytes) (h : alookup c.authChallenges id = none)
    (hop : (CoreOp.generateChallenge secrets rnd).storesChallengeFor id = false) :
    alookup ((GenerateChallenge c secrets rnd).2).authChallenges id = none := by
  unfold GenerateChallenge
  cases hd : decryptUserSecrets secrets with
  | error e => simp; exact h
  | ok s =>
    cases hpk : s.PublicKey with
    | none => simp [hpk]; exact h
    | some pk =>
      have hne : s.ID ≠ id := by
        have hop' := hop
        simp only [CoreOp.storesChallengeFor] at hop'
        rw [hd] at hop'
        simpa using hop'
      simp [hpk]
      rw [alookup_ainsert_ne _ _ _ _ (Ne.symm hne)]
      exact h

theorem GenerateCommitments_snd_authChallenges (c : Core) (secrets : UserSecrets)
    (tok : JWTToken) (keyIDs : List String) (now : Int) (rnd : Int) (cid : Nat) :
    ((GenerateCommitments c secrets tok keyIDs now rnd cid).2).authChallenges =
      c.authChallenges := by
  unfold GenerateCommitments
  cases resolveKeys c keyIDs with
  | error e => rfl
  | ok ks =>
    cases verifyAccess c secrets tok now with
    | error e => rfl
    | ok s => rfl

theorem GenerateCommitments_commitmentData_none (c : Core) (secrets : UserSecrets)
    (tok : JWTToken) (keyIDs : List String) (now : Int) (rnd : Int) (cid : Nat)
    (cid' : Nat) (h : alookup c.commitmentData cid' = none) (hne : cid ≠ cid') :
    alookup ((GenerateCommitments c secrets tok keyIDs now rnd cid).2).commitmentData
      cid' = none := by
  unfold GenerateCommitments
  cases resolveKeys c keyIDs with
  | error e => exact h
  | ok ks =>
    cases verifyAccess c secrets tok now with
    | error e => exact h
    | ok s =>
      simp only []
      rw [alookup_ainsert_ne _ _ _ _ (Ne.symm hne)]
      exact h

theorem GenerateResponse_snd_authChallenges (c : Core) (secrets : UserSecrets)
    (tok : JWTToken) (cid : Nat) (ch : Int) (kid : String) (now : Int) :
    ((GenerateResponse c secrets tok cid ch kid now).2).authChallenges =
      c.authChallenges := by
  unfold GenerateResponse
  split
  · rfl
  · cases alookup c.trustedKeys kid with
    | none => rfl
    | some key =>
      cases verifyAccess c secrets tok now with
      | error e => rfl
      | ok s => cases alookup c.commitmentData cid <;> rfl

theorem GenerateResponse_commitmentData_none (c : Core) (secrets : UserSecrets)
    (tok : JWTToken) (cid : Nat) (ch : Int) (kid : String) (now : Int)
    (cid' : Nat) (h : alookup c.commitmentData cid' = none) :
    alookup ((GenerateResponse c secrets tok cid ch kid now).2).commitmentData
      cid' = none := by
  unfold GenerateResponse
  split
  · exact h
  · cases alookup c.trustedKeys kid with
    | none => exact h
    | some key =>
      cases verifyAccess c secrets tok now with
      | error e => exact h
      | ok s =>
        cases alookup c.commitmentData cid <;> simp only [] <;>
          exact alookup_aerase_none _ _ _ h

theorem applyOp_commitment_none (c : Core) (op : CoreOp) (cid : Nat)
    (h : alookup c.commitmentData cid = none)
    (hop : op.mintsCommit cid = false) :
    alookup ((applyOp c op).commitmentData) cid = none := by
  cases op with
  | validateAuth secrets resp pin now =>
    unfold applyOp
    rw [ValidateAuth_snd_commitmentData]
    exact h
  | generateChallenge secrets rnd =>
    unfold applyOp
    rw [GenerateChallenge_snd_commitmentData]
    exact h
  | generateCommitments secrets tok keyIDs now rnd cid₂ =>
    have hne : cid₂ ≠ cid := by
      unfold CoreOp.mintsCommit at hop
      simpa using hop
    exact GenerateCommitments_commitmentData_none c secrets tok keyIDs now rnd cid₂
      cid h hne
  | generateResponse secrets tok cid₂ ch kid now =>
    exact GenerateResponse_commitmentData_none c secrets tok cid₂ ch kid now cid h

theorem applyOp_challenge_none (c : Core) (op : CoreOp) (id : Bytes)
    (h : alookup c.authChallenges id = none)
    (hop : op.storesChallengeFor id = false) :
    alookup ((applyOp c op).authChallenges) id = none := by
  cases op with
  | validateAuth secrets resp pin now =>
    exact ValidateAuth_authChallenges_none c secrets resp pin now id h
  | generateChallenge secrets rnd =>
    exact GenerateChallenge_authChallenges_none c secrets rnd id h hop
  | generateCommitments secrets tok keyIDs now rnd cid =>
    unfold applyOp
    rw [GenerateCommitments_snd_authChallenges]
    exact h
  | generateResponse secrets tok cid ch kid now =>
    unfold applyOp
    rw [GenerateResponse_snd_authChallenges]
    exact h

theorem applyOps_commitment_none (c : Core) (ops : List CoreOp) (cid : Nat)
    (h : alookup c.commitmentData cid = none)
    (hops : ∀ op ∈ ops, op.mintsCommit cid = false) :
    alookup ((applyOps c ops).commitmentData) cid = none := by
  induction ops generalizing c with
  | nil => exact h
  | cons op rest ih =>
    have hstep := applyOp_commitment_none c op cid h (hops op (by simp))
    have hrest : ∀ o ∈ rest, o.mintsCommit cid = false := fun o ho => hops o (by simp [ho])
    simpa [applyOps, List.foldl_cons] using ih (applyOp c op) hstep hrest

theorem applyOps_challenge_none (c : Core) (ops : List CoreOp) (id : Bytes)
    (h : alookup c.authChallenges id = none)
    (hops : ∀ op ∈ ops, op.storesChallengeFor id = false) :
    alookup ((applyOps c ops).authChallenges) id = none := by
  induction ops generalizing c with
  | nil => exact h
  | cons op rest ih =>
    have hstep := applyOp_challenge_none c op id h (hops op (by simp))
    have hrest : ∀ o ∈ rest, o.storesChallengeFor id = false :=
      fun o ho => hops o (by simp [ho])
    simpa [applyOps, List.foldl_cons] using ih (applyOp c op) hstep hrest

/- ### C5 -/

/-- A successful `GenerateResponse` leaves the consumed commit id deleted. -/
theorem GenerateResponse_ok_inv (c c₁ : Core) (secrets : UserSecrets) (tok : JWTToken)
    (cid : Nat) (ch : Int) (kid : String) (now : Int) (r : ProofPJWT)
    (h : GenerateResponse c secrets tok cid ch kid now = (.ok r, c₁)) :
    c₁.commitmentData = aerase c.commitmentData cid := by
  unfold GenerateResponse at h
  split at h
  · simp at h
  · cases hk : alookup c.trustedKeys kid with
    | none => rw [hk] at h; simp at h
    | some key =>
      rw [hk] at h
      simp at h
      cases ha : verifyAccess c secrets tok now with
      | error e => rw [ha] at h; simp at h
      | ok s =>
        rw [ha] at h
        simp at h
        cases hc : alookup c.commitmentData cid with
        | none => rw [hc] at h; simp at h
        | some commit =>
          rw [hc] at h
          simp at h
          rw [← h.2]

/-- With the commit id absent, `GenerateResponse` can never succeed. -/
theorem GenerateResponse_absent_not_ok (c : Core) (secrets : UserSecrets)
    (tok : JWTToken) (cid : Nat) (ch : Int) (kid : String) (now : Int)
    (habs : alookup c.commitmentData cid = none) (r : ProofPJWT) (c' : Core) :
    GenerateResponse c secrets tok cid ch kid now ≠ (.ok r, c') := by
  intro h
  unfold GenerateResponse at h
  split at h
  · simp at h
  · cases hk : alookup c.trustedKeys kid with
    | none => rw [hk] at h; simp at h
    | some key =>
      rw [hk] at h
      simp at h
      cases ha : verifyAccess c secrets tok now with
      | error e => rw [ha] at h; simp at h
      | ok s =>
        rw [ha] at h
        simp at h
        rw [habs] at h
        simp at h

/-- With the commit id absent and all other checks passing, `GenerateResponse`
fails with `ErrUnknownCommit`. -/
theorem GenerateResponse_absent_unknown (c : Core) (secrets : UserSecrets)
    (tok : JWTToken) (cid : Nat) (ch : Int) (kid : String) (now : Int)
    (key : Nat) (s : unencryptedUserSecrets)
    (habs : alookup c.commitmentData cid = none)
    (h1 : bitLen ch ≤ Lh) (h2 : 0 ≤ ch)
    (hk : alookup c.trustedKeys kid = some key)
    (ha : verifyAccess c secrets tok now = .ok s) :
    (GenerateResponse c secrets tok cid ch kid now).1 = .error .unknownCommit := by
  have hcond : ¬(Lh < bitLen ch ∨ ch < 0) := by
    push_neg
    exact ⟨h1, h2⟩
  unfold GenerateResponse
  rw [if_neg hcond, hk]
  simp only []
  rw [ha]
  simp only []
  rw [habs]

/-- C5: commit consumption is exactly-once.  After one successful
`GenerateResponse` has consumed a commit id, and any interleaving of core
operations none of which is a `GenerateCommitments` that drew the same commit
id, no later `GenerateResponse` with that commit id can succeed, and one
whose challenge, keyID and access token pass their checks fails with
`ErrUnknownCommit`. -/
theorem generateResponse_exactly_once
    (c c₁ : Core) (secrets : UserSecrets) (tok : JWTToken) (cid : Nat)
    (ch : Int) (kid : String) (now : Int) (r : ProofPJWT)
    (hfirst : GenerateResponse c secrets tok cid ch kid now = (.ok r, c₁))
    (ops : List CoreOp) (hops : ∀ op ∈ ops, op.mintsCommit cid = false)
    (secrets₂ : UserSecrets) (tok₂ : JWTToken) (ch₂ : Int) (kid₂ : String) (now₂ : Int) :
    (∀ r₂ c₂, GenerateResponse (applyOps c₁ ops) secrets₂ tok₂ cid ch₂ kid₂ now₂ ≠
      (.ok r₂, c₂)) ∧
    (bitLen ch₂ ≤ Lh → 0 ≤ ch₂ →
      ∀ key₂, alookup (applyOps c₁ ops).trustedKeys kid₂ = some key₂ →
      ∀ s₂, verifyAccess (applyOps c₁ ops) secrets₂ tok₂ now₂ = .ok s₂ →
      (GenerateResponse (applyOps c₁ ops) secrets₂ tok₂ cid ch₂ kid₂ now₂).1 =
        .error .unknownCommit) := by
  have h1 : alookup c₁.commitmentData cid = none := by
    rw [GenerateResponse_ok_inv c c₁ secrets tok cid ch kid now r hfirst]
    exact alookup_aerase_self _ _
  have habs : alookup ((applyOps c₁ ops).commitmentData) cid = none :=
    applyOps_commitment_none c₁ ops cid h1 hops
  constructor
  · intro r₂ c₂
    exact GenerateResponse_absent_not_ok _ secrets₂ tok₂ cid ch₂ kid₂ now₂ habs r₂ c₂
  · intro hb1 hb2 key₂ hk s₂ ha
    exact GenerateResponse_absent_unknown _ secrets₂ tok₂ cid ch₂ kid₂ now₂ key₂ s₂
      habs hb1 hb2 hk ha

/-- Witness for C5: a concrete first response consumes commit id 5; the
immediate second identical call cannot succeed and fails with
`ErrUnknownCommit`. -/
theorem generateResponse_exactly_once_witness :
    (GenerateResponse sampleCore (some sampleSecretsCR)
        (authJWT sampleCoreWithCommit sampleSecretsCR 0) 5 3 "test.test-3" 0 ≠
      (.ok { proofP := (3, 99, 3, 7), iat := 0, iss := "issuer0", kid := "kid0",
             signedBy := 1 }, sampleCore)) ∧
    (GenerateResponse sampleCore (some sampleSecretsCR)
        (authJWT sampleCoreWithCommit sampleSecretsCR 0) 5 3 "test.test-3" 0).1 =
      .error .unknownCommit :=
  have h := generateResponse_exactly_once sampleCoreWithCommit sampleCore
    (some sampleSecretsCR) (authJWT sampleCoreWithCommit sampleSecretsCR 0) 5 3
    "test.test-3" 0
    { proofP := (3, 99, 3, 7), iat := 0, iss := "issuer0", kid := "kid0", signedBy := 1 }
    rfl [] (by simp) (some sampleSecretsCR)
    (authJWT sampleCoreWithCommit sampleSecretsCR 0) 3 "test.test-3" 0
  ⟨h.1 { proofP := (3, 99, 3, 7), iat := 0, iss := "issuer0", kid := "kid0",
         signedBy := 1 } sampleCore,
   h.2 (by decide) (by decide) 7 rfl sampleSecretsCR rfl⟩

/- ### C7 -/

/-- A successful `GenerateChallenge` implies a registered public key. -/
theorem GenerateChallenge_ok_pk (c : Core) (secrets : UserSecrets) (rnd ch : Bytes)
    (c₁ : Core) (s : unencryptedUserSecrets)
    (hdec : decryptUserSecrets secrets = .ok s)
    (h : GenerateChallenge c secrets rnd = (.ok ch, c₁)) :
    s.PublicKey.isSome = true := by
  unfold GenerateChallenge at h
  rw [hdec] at h
  simp at h
  cases hpk : s.PublicKey with
  | none => rw [hpk] at h; simp at h
  | some pk => rfl

/-- A `ValidateAuth` that passes the PIN gate consumes the stored challenge
for the user's token-id. -/
theorem ValidateAuth_consumes (c : Core) (secrets : UserSecrets)
    (s : unencryptedUserSecrets) (resp : Response) (pin : String) (now : Int)
    (hp : decryptUserSecretsIfPinOK secrets pin = .ok s) :
    alookup ((ValidateAuth c secrets resp pin now).2).authChallenges s.ID = none := by
  unfold ValidateAuth
  rw [hp]
  have h2 := verifyChallengeResponse_snd c s resp pin
  rcases hv : verifyChallengeResponse c s resp pin with ⟨r, c'⟩
  rw [hv] at h2
  cases r <;> simp [hv, h2] <;> exact alookup_aerase_self _ _

/-- C7: auth-challenge consumption is one-shot.  After a `GenerateChallenge`
and one `ValidateAuth` that passed the PIN gate (and hence consumed the
stored challenge, whatever its own outcome), any interleaving of operations
that contains no `GenerateChallenge` for this user, followed by a second
`ValidateAuth` for the same user, fails. -/
theorem validateAuth_challenge_one_shot
    (c c₁ c₂ : Core) (secrets : UserSecrets) (s : unencryptedUserSecrets)
    (rnd ch : Bytes)
    (hdec : decryptUserSecrets secrets = .ok s)
    (hgc : GenerateChallenge c secrets rnd = (.ok ch, c₁))
    (resp₁ : Response) (pin₁ : String) (now₁ : Int) (r₁ : Except KError JWTToken)
    (hpin₁ : decryptUserSecretsIfPinOK secrets pin₁ = .ok s)
    (hva : ValidateAuth c₁ secrets resp₁ pin₁ now₁ = (r₁, c₂))
    (ops : List CoreOp) (hops : ∀ op ∈ ops, op.storesChallengeFor s.ID = false)
    (resp₂ : Response) (pin₂ : String) (now₂ : Int) :
    ((ValidateAuth (applyOps c₂ ops) secrets resp₂ pin₂ now₂).1).isOk = false := by
  have hpk : s.PublicKey.isSome = true :=
    GenerateChallenge_ok_pk c secrets rnd ch c₁ s hdec hgc
  have hnone : alookup c₂.authChallenges s.ID = none := by
    have hcons := ValidateAuth_consumes c₁ secrets s resp₁ pin₁ now₁ hpin₁
    rw [hva] at hcons
    exact hcons
  have habs : alookup ((applyOps c₂ ops).authChallenges) s.ID = none :=
    applyOps_challenge_none c₂ ops s.ID hnone hops
  cases h2 : decryptUserSecretsIfPinOK secrets pin₂ with
  | error e => simp [ValidateAuth, h2, Except.isOk, Except.toBool]
  | ok s' =>
    have hs' : s' = s := by
      have hd2 := decryptIfPinOK_ok_decrypt secrets pin₂ s' h2
      rw [hdec] at hd2
      exact ((Except.ok.injEq _ _).mp hd2).symm
    subst hs'
    simp [ValidateAuth, h2, verifyChallengeResponse, challengeOp, habs, hpk,
      Except.isOk, Except.toBool]

/-- Witness for C7: concrete challenge issue, consuming first verification,
and a failing second verification with the correct PIN. -/
theorem validateAuth_challenge_one_shot_witness :
    ((ValidateAuth sampleCore (some sampleSecretsCR) none "1234" 0).1).isOk = false :=
  validateAuth_challenge_one_shot sampleCore sampleCoreWithChallenge sampleCore
    (some sampleSecretsCR) sampleSecretsCR [9, 9] [9, 9] rfl rfl
    (some { key := 9, challenge := [9, 9], pin := "1234" }) "1234" 0
    (.ok (authJWT sampleCoreWithChallenge sampleSecretsCR 0)) rfl rfl
    [] (by simp) none "1234" 0

end Keysharecore
